import Mathlib

/-!
Verification of the BME68x environmental-sensor driver core.

The definitions below are a shallow embedding of the Go driver: machine
integers become `Nat`/`Int` with explicit wrap (`% 256`, `% 2 ^ 16`,
`% 2 ^ 32`, two's-complement wrap for `int32`), floating-point values become
real numbers, bus transports become oracles (functions giving the bytes each
read returns) together with explicit event traces, and fallible operations
return `Option`.
-/

namespace Bme68x

/-- Register address of the first measurement-status block (`MEAS_STATUS_0`). -/
def MEAS_STATUS_0 : Nat := 0x1D

/-- Mask for the new-data bit of the status byte. -/
def NEW_DATA_MSK : Nat := 0x80

/-- Mask for the gas heater-profile index in the status byte. -/
def GAS_INDEX_MSK : Nat := 0x0F

/-- Mask for the gas range nibble. -/
def GAS_RANGE_MSK : Nat := 0x0F

/-- Mask for the gas-measurement-valid bit. -/
def GASM_VALID_MSK : Nat := 0x20

/-- Mask for the heater-stable bit. -/
def HEAT_STAB_MSK : Nat := 0x10

/-- Variant id reported by the high-gas-capability hardware revision. -/
def VARIANT_GAS_HIGH : Nat := 0x01

/-- Mask for the power-mode field of the `CTRL_MEAS` register. -/
def MODE_MSK : Nat := 0x03

/-- Register address of `CTRL_MEAS`. -/
def REG_CTRL_MEAS : Nat := 0x74

/-- Register address of the heater-resistance register of profile 0. -/
def REG_RES_HEAT0 : Nat := 0x5A

/-- Register address of the current-DAC register of profile 0. -/
def REG_IDAC_HEAT0 : Nat := 0x50

/-- Register address of the gas-wait register of profile 0. -/
def REG_GAS_WAIT0 : Nat := 0x64

/-- Register address of the SPI memory-page select register. -/
def REG_MEM_PAGE : Nat := 0xF3

/-- Mask of the SPI memory-page bit inside the page-select register. -/
def MEM_PAGE_MSK : Nat := 0x10

/-- Bit ORed into the register byte for an SPI read. -/
def SPI_RD_MSK : Nat := 0x80

/-- Mask applied to the register byte for an SPI write. -/
def SPI_WR_MSK : Nat := 0x7F

/-- Value of the page-select field standing for SPI memory page 0. -/
def MEM_PAGE0 : Nat := 0x10

/-- Value of the page-select field standing for SPI memory page 1. -/
def MEM_PAGE1 : Nat := 0x00

/-- Length of the interleave scratch buffer used by both Write paths. -/
def LEN_INTERLEAVE_BUFF : Nat := 20

/-- Sleep mode (`ModeSleep`). -/
def ModeSleep : Nat := 0x00

/-- Forced mode (`ModeForced`). -/
def ModeForced : Nat := 0x01

/-- Saturated gas-wait register value (`MaxDuration`). -/
def MaxDuration : Nat := 0xFF

/-- Per-measurement-cycle duration offset in microseconds (`MeasOffset`). -/
def MeasOffset : Nat := 1963

/-- Fixed TPH-switching duration in microseconds (`MeasDur`). -/
def MeasDur : Nat := 1908

/-- Fixed gas-measurement duration in microseconds (`GasDur`). -/
def GasDur : Nat := 2385

/-- Fixed wake-up duration in microseconds (`WakeUpDur`). -/
def WakeUpDur : Nat := 1000

/-- Lookup table from the oversampling enum to the number of measurement
cycles (`osToMeasCycles`); indices follow the `Oversampling` enum
off, 1x, 2x, 4x, 8x, 16x. -/
def osToMeasCycles : List Nat := [0, 1, 2, 4, 8, 16]

/-- Total TPHG conversion duration in microseconds (`calcMeasDuration`):
the three oversampling settings are looked up, summed in a `uint8`,
multiplied by the per-cycle offset and added to the fixed phase durations
in a `uint32`. -/
def calcMeasDuration (temperature pressure humidity : Nat) : Nat :=
  let measCycles :=
    (osToMeasCycles.getD temperature 0 + osToMeasCycles.getD pressure 0 +
      osToMeasCycles.getD humidity 0) % 256
  (measCycles * MeasOffset + MeasDur + GasDur + WakeUpDur) % 2 ^ 32

/-- Delay period in microseconds computed at the start of `Read`:
conversion duration plus the heater duration (a `uint16`) times 1000. -/
def delayusPeriod (temperature pressure humidity heatrDur : Nat) : Nat :=
  (calcMeasDuration temperature pressure humidity + heatrDur % 2 ^ 16 * 1000) % 2 ^ 32

/-- Wait period in milliseconds recorded by `Read` into `d.measPeriod`:
the Go source computes `uint16(delayusPeriod) / 1000`, truncating the
microsecond count to 16 bits before dividing. -/
def measPeriod (temperature pressure humidity heatrDur : Nat) : Nat :=
  delayusPeriod temperature pressure humidity heatrDur % 2 ^ 16 / 1000

/-- Encoder loop of `calcGasWait`: divide by 4 until the value fits in
6 bits, counting the divisions in `factor`. -/
def gasWaitLoop (dur factor : Nat) : Nat × Nat :=
  if 0x3F < dur then gasWaitLoop (dur / 4) (factor + 1) else (dur, factor)
termination_by dur
decreasing_by exact Nat.div_lt_self (by omega) (by omega)

/-- Gas-wait register encoder (`calcGasWait`): a heater duration of at
least `0xFC0` saturates to `MaxDuration`; otherwise the duration is packed
as mantissa plus `factor * 64` in a `uint8`. -/
def calcGasWait (heatrDur : Nat) : Nat :=
  if 0xFC0 ≤ heatrDur then MaxDuration
  else
    let qf := gasWaitLoop heatrDur 0
    (qf.1 % 256 + qf.2 * 64 % 256) % 256

/-- Two's-complement wrap of an unbounded integer into `int32`. -/
def wrap32 (x : Int) : Int := (x + 2147483648) % 4294967296 - 2147483648

/-- Denominator `var2` of `calcGasResistanceHigh`: `int32(adcGasRes) - 512`,
then `* 3`, then `+ 4096`, each step in `int32` arithmetic. -/
def gasResHighVar2 (adcGasRes : Nat) : Int :=
  wrap32 (wrap32 (wrap32 ((adcGasRes : Int) - 512) * 3) + 4096)

/-- High-capability gas-resistance formula (`calcGasResistanceHigh`),
with the floating-point arithmetic modelled over the reals. -/
noncomputable def calcGasResistanceHigh (adcGasRes gasRange : Nat) : ℝ :=
  let var1 : Nat := 262144 >>> gasRange
  1000000 * (var1 : ℝ) / ((gasResHighVar2 adcGasRes : Int) : ℝ)

/-- Altitude helper (`CalcAltitude`): the measured pressure is divided by
100 before being related to the sea-level pressure, and the barometric
exponentiation is real `rpow`. -/
noncomputable def CalcAltitude (seaLevel pressure : ℝ) : ℝ :=
  let atmospheric := pressure / 100
  44330.0 * (1.0 - (atmospheric / seaLevel) ^ (0.1903 : ℝ))

/-- Event on the bus: a register read returning a value, or a register
write of a value. -/
inductive BusEv where
  | rd : Nat → Nat → BusEv
  | wr : Nat → Nat → BusEv

/-- Trace semantics of `SetMode`: `reads n` is the byte the bus returns for
the n-th read of `REG_CTRL_MEAS`. Each iteration reads the mode register;
while the power-mode field is not sleep it writes the byte with the mode
bits cleared (`&^ MODE_MSK`) and polls again. Once sleep is observed, a
non-sleep target mode is written into the mode bits. `none` means the
poll loop did not observe sleep within `fuel` reads (the Go loop would
still be running). -/
def setModeGo (reads : Nat → Nat) (mode : Nat) : Nat → Nat → Option (List BusEv)
  | 0, _ => none
  | fuel + 1, n =>
    let v := reads n % 256
    let powerMode := v &&& MODE_MSK
    if powerMode ≠ ModeSleep then
      match setModeGo reads mode fuel (n + 1) with
      | none => none
      | some evs =>
        some (BusEv.rd REG_CTRL_MEAS v :: BusEv.wr REG_CTRL_MEAS (v &&& 0xFC) :: evs)
    else
      some (BusEv.rd REG_CTRL_MEAS v ::
        (if mode ≠ ModeSleep then
          [BusEv.wr REG_CTRL_MEAS ((v &&& 0xFC) ||| (mode &&& MODE_MSK))]
        else []))

/-- Check of a trace: every write that occurs before the first read whose
power-mode field is sleep has its mode bits cleared. -/
def preSleepWritesClear : List BusEv → Bool
  | [] => true
  | BusEv.rd _ v :: rest =>
    if v &&& MODE_MSK == ModeSleep then true else preSleepWritesClear rest
  | BusEv.wr _ v :: rest =>
    (v &&& MODE_MSK == ModeSleep) && preSleepWritesClear rest

/-- Target memory page computed by `setMemoryPage` from the register
address: registers above `0x7F` live on `MEM_PAGE1`, the rest on
`MEM_PAGE0`. -/
def targetPage (reg : Nat) : Nat := if 0x7F < reg then MEM_PAGE1 else MEM_PAGE0

/-- Page resynchronisation of the paged (SPI) transport (`setMemoryPage`):
if the target page equals the cached page nothing happens; otherwise the
cache is updated, the page-select register is read back (`pageRead` is the
byte the bus returns), its page bit is cleared, the new page is ORed in
and the byte is written back. Returns the new cached page and the bus
events issued. -/
def setMemoryPage (pageRead : Nat) (memoryPage : Nat) (reg : Nat) : Nat × List BusEv :=
  let target := targetPage reg
  if target = memoryPage then (memoryPage, [])
  else
    let v := pageRead % 256
    let dataByte := (v &&& (255 - MEM_PAGE_MSK)) ||| (target &&& MEM_PAGE_MSK)
    (target,
      [BusEv.rd (REG_MEM_PAGE ||| SPI_RD_MSK) v,
       BusEv.wr (REG_MEM_PAGE ||| SPI_WR_MSK) dataByte])

/-- Count of write events in a trace. -/
def countWrites : List BusEv → Nat
  | [] => 0
  | BusEv.wr _ _ :: rest => countWrites rest + 1
  | BusEv.rd _ _ :: rest => countWrites rest

/-- Interleave buffer built by both Write paths: a 20-byte scratch buffer,
zero-initialised, whose first `2 * data.length` bytes are the interleaved
(register, value) pairs. -/
def interleaveBuf (reg data : List Nat) : List Nat :=
  (List.range LEN_INTERLEAVE_BUFF).map fun j =>
    if j / 2 < data.length then
      (if j % 2 = 0 then reg.getD (j / 2) 0 % 256 else data.getD (j / 2) 0 % 256)
    else 0

/-- Addressed (I2C) transport Write (`i2c.Write`): when `data` is non-empty
and holds at most half the interleave-buffer capacity, the interleave
buffer is transmitted as one transaction (`tx` is the bus's response to a
transmit); otherwise no transaction is issued and nil is returned. Result:
the transactions put on the wire, and `some ()` for a nil error. -/
def i2cWrite (tx : List Nat → Option Unit) (reg data : List Nat) :
    List (List Nat) × Option Unit :=
  if 0 < data.length ∧ data.length ≤ LEN_INTERLEAVE_BUFF / 2 then
    let buf := interleaveBuf reg data
    match tx buf with
    | none => ([buf], none)
    | some _ => ([buf], some ())
  else ([], some ())

/-- Page-resynchronisation loop performed by `spi.Write` while filling the
buffer: one `setMemoryPage` per (register, value) pair, threading the
cached page; `pageReads i` is the byte the bus returns if the i-th pair
needs a page read-back. Returns the final cached page and the page events. -/
def spiPageLoop (pageReads : Nat → Nat) (reg : List Nat) : Nat → Nat → Nat → Nat × List BusEv
  | page, _, 0 => (page, [])
  | page, i, k + 1 =>
    let step := setMemoryPage (pageReads i) page (reg.getD i 0 % 256)
    let rest := spiPageLoop pageReads reg step.1 (i + 1) k
    (rest.1, step.2 ++ rest.2)

/-- Paged (SPI) transport Write (`spi.Write`): the same capacity guard as
the addressed transport; each register byte put in the interleave buffer is
masked to 7 bits with `SPI_WR_MSK`, and a page resynchronisation runs per
pair. Returns the final cached page, the page events, the data
transactions transmitted and the result. -/
def spiWrite (pageReads : Nat → Nat) (tx : List Nat → Option Unit) (memoryPage : Nat)
    (reg data : List Nat) : Nat × List BusEv × List (List Nat) × Option Unit :=
  if 0 < data.length ∧ data.length ≤ LEN_INTERLEAVE_BUFF / 2 then
    let pages := spiPageLoop pageReads reg memoryPage 0 data.length
    let buf := interleaveBuf (reg.map fun r => r % 256 &&& SPI_WR_MSK) data
    match tx buf with
    | none => (pages.1, pages.2, [buf], none)
    | some _ => (pages.1, pages.2, [buf], some ())
  else (memoryPage, [], [], some ())

/-- Fake mode-register read sequence: the first read reports forced mode,
every later read reports sleep. -/
def readsWitness : Nat → Nat := fun n => if n = 0 then 1 else 0

/-- Fake transmit that always succeeds. -/
def txOk : List Nat → Option Unit := fun _ => some ()

/-- Fake page-register read-back that always returns 0. -/
def pageReadsZero : Nat → Nat := fun _ => 0

/-- Factory calibration coefficients (`calibrationCoefficients`): unsigned
fields become `Nat`, signed fields become `Int`. -/
structure CalibrationCoefficients where
  t1 : Nat
  t2 : Int
  t3 : Int
  p1 : Nat
  p2 : Int
  p3 : Int
  p4 : Int
  p5 : Int
  p6 : Int
  p7 : Int
  p8 : Int
  p9 : Int
  p10 : Int
  h1 : Nat
  h2 : Nat
  h3 : Int
  h4 : Int
  h5 : Int
  h6 : Nat
  h7 : Int
  g1 : Int
  g2 : Int
  g3 : Int
  resHeatRange : Nat
  resHeatVal : Int
  rangeSwErr : Int

/-- Temperature compensation (`calcTemperature`): returns the fine
intermediate stored into `TemperatureFine` and the Celsius value. -/
noncomputable def calcTemperature (c : CalibrationCoefficients) (adcTemp : Nat) : ℝ × ℝ :=
  let var1 := ((adcTemp : ℝ) / 16384 - (c.t1 : ℝ) / 1024) * (c.t2 : ℝ)
  let var2 := (((adcTemp : ℝ) / 131072 - (c.t1 : ℝ) / 8192) *
    ((adcTemp : ℝ) / 131072 - (c.t1 : ℝ) / 8192)) * ((c.t3 : ℝ) * 16)
  let temperatureFine := var1 + var2
  (temperatureFine, temperatureFine / 5120)

open Classical in
/-- Pressure compensation (`calcPressure`), guarding the division by a
coefficient combination that can evaluate to zero. -/
noncomputable def calcPressure (c : CalibrationCoefficients) (temperatureFine : ℝ)
    (adcPres : Nat) : ℝ :=
  let var1a := temperatureFine / 2 - 64000
  let var2a := var1a * var1a * ((c.p6 : ℝ) / 131072)
  let var2b := var2a + var1a * (c.p5 : ℝ) * 2
  let var2c := var2b / 4 + (c.p4 : ℝ) * 65536
  let var1b := (((c.p3 : ℝ) * var1a * var1a) / 16384 + (c.p2 : ℝ) * var1a) / 524288
  let var1c := (1 + var1b / 32768) * (c.p1 : ℝ)
  let calcPres0 := 1048576 - (adcPres : ℝ)
  if var1c = 0 then 0
  else
    let calcPres1 := (calcPres0 - var2c / 4096) * 6250 / var1c
    let var1d := (c.p9 : ℝ) * calcPres1 * calcPres1 / 2147483648
    let var2d := calcPres1 * ((c.p8 : ℝ) / 32768)
    let var3 := calcPres1 / 256 * (calcPres1 / 256) * (calcPres1 / 256) * ((c.p10 : ℝ) / 131072)
    calcPres1 + (var1d + var2d + var3 + (c.p7 : ℝ) * 128) / 16

open Classical in
/-- Humidity compensation (`calcHumidity`), clamped to [0, 100]. -/
noncomputable def calcHumidity (c : CalibrationCoefficients) (temperatureFine : ℝ)
    (adcHum : Nat) : ℝ :=
  let tempComp := temperatureFine / 5120.0
  let var1 := (adcHum : ℝ) - ((c.h1 : ℝ) * 16.0 + (c.h3 : ℝ) / 2.0 * tempComp)
  let var2 := var1 * ((c.h2 : ℝ) / 262144.0 *
    (1.0 + (c.h4 : ℝ) / 16384.0 * tempComp + (c.h5 : ℝ) / 1048576.0 * tempComp * tempComp))
  let var3 := (c.h6 : ℝ) / 16384.0
  let var4 := (c.h7 : ℝ) / 2097152.0
  let calcHum := var2 + (var3 + var4 * tempComp) * var2 * var2
  if 100.0 < calcHum then 100.0
  else if calcHum < 0.0 then 0.0
  else calcHum

/-- Percentage-correction lookup table `lookupK1Range`, indexed by the
4-bit gas range. -/
def lookupK1Range : List ℝ :=
  [0, 0, 0, 0, 0, -1, 0, -0.8, 0, 0, -0.2, -0.5, 0, -1, 0, 0]

/-- Percentage-correction lookup table `lookupK2Range`, indexed by the
4-bit gas range. -/
def lookupK2Range : List ℝ :=
  [0, 0, 0, 0, 0.1, 0.7, 0, -0.8, -0.1, 0, 0, 0, 0, 0, 0, 0]

/-- Low-capability gas-resistance formula (`calcGasResistanceLow`), using
the two lookup tables and the range-switch-error coefficient. -/
noncomputable def calcGasResistanceLow (c : CalibrationCoefficients)
    (adcGasRes gasRange : Nat) : ℝ :=
  let gasRangeF : ℝ := ((1 <<< gasRange : Nat) : ℝ)
  let var1 : ℝ := 1340.0 + 5.0 * (c.rangeSwErr : ℝ)
  let var2 := var1 * (1.0 + lookupK1Range.getD gasRange 0 / 100.0)
  let var3 := 1.0 + lookupK2Range.getD gasRange 0 / 100.0
  1.0 / (var3 * 0.000000125 * gasRangeF * (((adcGasRes : ℝ) - 512.0) / var2 + 1.0))

/-- Measurement snapshot held in the `Device` struct. -/
structure DeviceMeas where
  Status : Nat
  GasIndex : Nat
  MeasIndex : Nat
  ResHeat : Nat
  Idac : Nat
  GasWait : Nat
  TemperatureFine : ℝ
  Temperature : ℝ
  Pressure : ℝ
  Humidity : ℝ
  GasResistance : ℝ

/-- Bus read oracle: register and length to the bytes returned, `none`
for an I/O error. -/
def BusReads : Type := Nat → Nat → Option (List Nat)

/-- Byte `i` of a read buffer (out-of-range reads give 0, and every byte
is reduced to its 8-bit value). -/
def byteAt (data : List Nat) (i : Nat) : Nat := data.getD i 0 % 256

/-- Raw pressure ADC field: `data[2]*4096 | data[3]*16 | data[4]/16`. -/
def adcPresOf (data : List Nat) : Nat :=
  byteAt data 2 * 4096 ||| byteAt data 3 * 16 ||| byteAt data 4 / 16

/-- Raw temperature ADC field: `data[5]*4096 | data[6]*16 | data[7]/16`. -/
def adcTempOf (data : List Nat) : Nat :=
  byteAt data 5 * 4096 ||| byteAt data 6 * 16 ||| byteAt data 7 / 16

/-- Raw humidity ADC field: `data[8]*256 | data[9]`. -/
def adcHumOf (data : List Nat) : Nat :=
  (byteAt data 8 * 256 ||| byteAt data 9) % 2 ^ 16

/-- Raw low-variant gas-resistance field: `data[13]*4 | data[14]/64`. -/
def adcGasResLowOf (data : List Nat) : Nat :=
  (byteAt data 13 * 4 ||| byteAt data 14 / 64) % 2 ^ 16

/-- Raw high-variant gas-resistance field: `data[15]*4 | data[16]/64`. -/
def adcGasResHighOf (data : List Nat) : Nat :=
  (byteAt data 15 * 4 ||| byteAt data 16 / 64) % 2 ^ 16

/-- Low-variant gas range nibble of `data[14]`. -/
def gasRangeLowOf (data : List Nat) : Nat := byteAt data 14 &&& GAS_RANGE_MSK

/-- High-variant gas range nibble of `data[16]`. -/
def gasRangeHighOf (data : List Nat) : Nat := byteAt data 16 &&& GAS_RANGE_MSK

/-- Status byte latched by one poll attempt: the new-data bit of
`data[0]`, ORed with the gas-valid and heat-stable bits taken from
`data[16]` on the high-capability variant and from `data[14]` otherwise. -/
def statusOf (variantID : Nat) (data : List Nat) : Nat :=
  byteAt data 0 &&& NEW_DATA_MSK |||
    (if variantID = VARIANT_GAS_HIGH then byteAt data 16 else byteAt data 14) &&& GASM_VALID_MSK |||
    (if variantID = VARIANT_GAS_HIGH then byteAt data 16 else byteAt data 14) &&& HEAT_STAB_MSK

/-- One poll attempt of `readData`: read the 17-byte window of attempt
`i`, latch status / gas index / measurement index, and when the new-data
bit is set read back the heater registers at the profile index, run the
compensation formulas and latch the gas resistance (zero unless a gas
status bit is set). Returns whether new data was seen, the updated
snapshot, and the (register, length) reads performed. -/
noncomputable def readAttempt (bus : BusReads) (variantID : Nat)
    (cal : CalibrationCoefficients) (i : Nat) (m : DeviceMeas) :
    Option (Bool × DeviceMeas × List (Nat × Nat)) :=
  match bus (MEAS_STATUS_0 + i * 17) 17 with
  | none => none
  | some data =>
    let status := statusOf variantID data
    let gasIndex := byteAt data 0 &&& GAS_INDEX_MSK
    let measIndex := byteAt data 1
    if status &&& NEW_DATA_MSK ≠ 0 then
      match bus (REG_RES_HEAT0 + gasIndex) 1 with
      | none => none
      | some resHeat =>
        match bus (REG_IDAC_HEAT0 + gasIndex) 1 with
        | none => none
        | some idac =>
          match bus (REG_GAS_WAIT0 + gasIndex) 1 with
          | none => none
          | some gasWait =>
            let tf := calcTemperature cal (adcTempOf data)
            let gasRes : ℝ :=
              if status &&& (HEAT_STAB_MSK ||| GASM_VALID_MSK) ≠ 0 then
                if variantID = VARIANT_GAS_HIGH then
                  calcGasResistanceHigh (adcGasResHighOf data) (gasRangeHighOf data)
                else
                  calcGasResistanceLow cal (adcGasResLowOf data) (gasRangeLowOf data)
              else 0
            some (true,
              { m with
                  Status := status, GasIndex := gasIndex, MeasIndex := measIndex,
                  ResHeat := byteAt resHeat 0, Idac := byteAt idac 0,
                  GasWait := byteAt gasWait 0,
                  TemperatureFine := tf.1, Temperature := tf.2,
                  Pressure := calcPressure cal tf.1 (adcPresOf data),
                  Humidity := calcHumidity cal tf.1 (adcHumOf data),
                  GasResistance := gasRes },
              [(MEAS_STATUS_0 + i * 17, 17), (REG_RES_HEAT0 + gasIndex, 1),
               (REG_IDAC_HEAT0 + gasIndex, 1), (REG_GAS_WAIT0 + gasIndex, 1)])
    else
      some (false,
        { m with Status := status, GasIndex := gasIndex, MeasIndex := measIndex },
        [(MEAS_STATUS_0 + i * 17, 17)])

/-- Poll loop of `readData`: up to `rem` more attempts starting at attempt
index `i`; stops at the first attempt that sees new data, returns success
with the last latched snapshot when the attempts run out, and propagates a
bus error as `none`. -/
noncomputable def readDataGo (bus : BusReads) (variantID : Nat)
    (cal : CalibrationCoefficients) :
    Nat → Nat → DeviceMeas → Option (DeviceMeas × List (Nat × Nat))
  | _, 0, m => some (m, [])
  | i, rem + 1, m =>
    match readAttempt bus variantID cal i m with
    | none => none
    | some (newData, m1, tr) =>
      if newData then some (m1, tr)
      else
        match readDataGo bus variantID cal (i + 1) rem m1 with
        | none => none
        | some (m2, tr2) => some (m2, tr ++ tr2)

/-- Data-fetch step of a measurement read (`readData`): 5 poll attempts. -/
noncomputable def readData (bus : BusReads) (variantID : Nat)
    (cal : CalibrationCoefficients) (m : DeviceMeas) :
    Option (DeviceMeas × List (Nat × Nat)) :=
  readDataGo bus variantID cal 0 5 m

/-- All-zero calibration vector. -/
def calibZero : CalibrationCoefficients :=
  ⟨0, 0, 0, 0, 0, 0, 0, 0, 0, 0, 0, 0, 0, 0, 0, 0, 0, 0, 0, 0, 0, 0, 0, 0, 0, 0⟩

/-- All-zero measurement snapshot (the state before the first read). -/
def measZero : DeviceMeas := ⟨0, 0, 0, 0, 0, 0, 0, 0, 0, 0, 0⟩

/-- All-zero 17-byte status window: new-data bit clear. -/
def windowZero : List Nat := List.replicate 17 0

/-- Fake bus that never reports new data. -/
def busNoData : BusReads := fun _ _ => some windowZero

/-- Status window with the new-data bit clear but a non-zero measurement
index in byte 1. -/
def windowStale : List Nat := [0, 1, 0, 0, 0, 0, 0, 0, 0, 0, 0, 0, 0, 0, 0, 0, 0]

/-- Fake bus returning `windowStale` for every read. -/
def busStale : BusReads := fun _ _ => some windowStale

/-- Status window with new data set and both gas status bits clear. -/
def windowNewDataOnly : List Nat :=
  [0x80, 0, 0, 0, 0, 0, 0, 0, 0, 0, 0, 0, 0, 0, 0, 0, 0]

/-- Fake bus whose 17-byte window is `windowNewDataOnly` and whose
single-register reads return zero. -/
def busNewDataOnly : BusReads :=
  fun _ len => if len = 17 then some windowNewDataOnly else some [0]

/-- Status window with new data set, the gas-valid bit (0x20) set in byte
16, the heat-stable bit (0x10) clear, and a high-variant gas ADC reading
of 512 at gas range 0. -/
def windowGasValidOnly : List Nat :=
  [0x80, 0, 0, 0, 0, 0, 0, 0, 0, 0, 0, 0, 0, 0, 0, 0x80, 0x20]

/-- Fake bus whose 17-byte window is `windowGasValidOnly` and whose
single-register reads return zero. -/
def busGasValidOnly : BusReads :=
  fun _ len => if len = 17 then some windowGasValidOnly else some [0]

/-- Sequence of (register, length) reads issued by `k` poll attempts that
see no new data, starting at attempt index `i`. -/
def pollTrace : Nat → Nat → List (Nat × Nat)
  | _, 0 => []
  | i, k + 1 => (MEAS_STATUS_0 + i * 17, 17) :: pollTrace (i + 1) k

end Bme68x

namespace Bme68x

theorem gasWaitLoop_of_le (dur factor : Nat) (h : dur ≤ 0x3F) :
    gasWaitLoop dur factor = (dur, factor) := by
  rw [gasWaitLoop]
  simp [Nat.not_lt.mpr h]

theorem gasWaitLoop_of_gt (dur factor : Nat) (h : 0x3F < dur) :
    gasWaitLoop dur factor = gasWaitLoop (dur / 4) (factor + 1) := by
  rw [gasWaitLoop]
  simp [h]

/-- Claim C7: for every heater duration below `0xFC0` the gas-wait encoder
returns `q + e * 64` where `e ≤ 3` is the least exponent with
`q = d / 4 ^ e ≤ 0x3F`, and for `d ≥ 0xFC0` it returns `0xFF`. -/
theorem calcGasWait_minimal_exponent (d : Nat) (hd : d < 2 ^ 16) :
    (0xFC0 ≤ d → calcGasWait d = 0xFF) ∧
    (d < 0xFC0 → ∃ e, e ≤ 3 ∧ d / 4 ^ e ≤ 0x3F ∧
      (∀ i, i < e → 0x3F < d / 4 ^ i) ∧ calcGasWait d = d / 4 ^ e + e * 64) := by
  constructor
  · intro h
    simp [calcGasWait, h, MaxDuration]
  · intro h
    by_cases h0 : d ≤ 0x3F
    · refine ⟨0, by omega, by simpa using h0, by omega, ?_⟩
      simp [calcGasWait, Nat.not_le.mpr (show d < 0xFC0 by omega),
        gasWaitLoop_of_le d 0 h0]
      omega
    · by_cases h1 : d ≤ 0xFF
      · refine ⟨1, by omega, by omega, ?_, ?_⟩
        · intro i hi
          interval_cases i
          simpa using h0
        · have hstep : gasWaitLoop d 0 = (d / 4, 1) := by
            rw [gasWaitLoop_of_gt d 0 (by omega), gasWaitLoop_of_le (d / 4) 1 (by omega)]
          simp [calcGasWait, Nat.not_le.mpr (show d < 0xFC0 by omega), hstep]
          omega
      · by_cases h2 : d ≤ 0x3FF
        · refine ⟨2, by omega, by omega, ?_, ?_⟩
          · intro i hi
            interval_cases i
            · simpa using h0
            · show 0x3F < d / 4 ^ 1
              omega
          · have hstep : gasWaitLoop d 0 = (d / 16, 2) := by
              rw [gasWaitLoop_of_gt d 0 (by omega), gasWaitLoop_of_gt (d / 4) 1 (by omega),
                gasWaitLoop_of_le (d / 4 / 4) 2 (by omega)]
              congr 1
              omega
            simp [calcGasWait, Nat.not_le.mpr (show d < 0xFC0 by omega), hstep]
            omega
        · refine ⟨3, by omega, by omega, ?_, ?_⟩
          · intro i hi
            interval_cases i
            · simpa using h0
            · show 0x3F < d / 4 ^ 1
              omega
            · show 0x3F < d / 4 ^ 2
              omega
          · have hstep : gasWaitLoop d 0 = (d / 64, 3) := by
              rw [gasWaitLoop_of_gt d 0 (by omega), gasWaitLoop_of_gt (d / 4) 1 (by omega),
                gasWaitLoop_of_gt (d / 4 / 4) 2 (by omega),
                gasWaitLoop_of_le (d / 4 / 4 / 4) 3 (by omega)]
              congr 1
              omega
            simp [calcGasWait, Nat.not_le.mpr (show d < 0xFC0 by omega), hstep]
            omega

/-- Witness for claim C7 at the concrete heater duration 300 ms. -/
theorem calcGasWait_minimal_exponent_witness :
    (300 : Nat) < 2 ^ 16 ∧
    ((0xFC0 ≤ 300 → calcGasWait 300 = 0xFF) ∧
      (300 < 0xFC0 → ∃ e, e ≤ 3 ∧ 300 / 4 ^ e ≤ 0x3F ∧
        (∀ i, i < e → 0x3F < 300 / 4 ^ i) ∧ calcGasWait 300 = 300 / 4 ^ e + e * 64)) :=
  ⟨by norm_num, calcGasWait_minimal_exponent 300 (by norm_num)⟩

/-- Claim C10: the `int32` denominator of the high-capability gas-resistance
formula equals `3 * (adcGasRes - 512) + 4096` without wrap, is at least 2560
for every `uint16` input, and is therefore never zero (also as the real
number the division is performed on). -/
theorem gasResHighVar2_positive (adcGasRes : Nat) (h : adcGasRes < 2 ^ 16) :
    gasResHighVar2 adcGasRes = 3 * ((adcGasRes : Int) - 512) + 4096 ∧
    2560 ≤ gasResHighVar2 adcGasRes ∧
    ((gasResHighVar2 adcGasRes : Int) : ℝ) ≠ 0 := by
  have hval : gasResHighVar2 adcGasRes = 3 * ((adcGasRes : Int) - 512) + 4096 := by
    unfold gasResHighVar2 wrap32
    omega
  refine ⟨hval, by omega, ?_⟩
  rw [hval]
  have : (3 : Int) * ((adcGasRes : Int) - 512) + 4096 ≠ 0 := by omega
  exact_mod_cast this

/-- Witness for claim C10 at the minimal ADC reading 0. -/
theorem gasResHighVar2_positive_witness :
    (0 : Nat) < 2 ^ 16 ∧
    (gasResHighVar2 0 = 3 * ((0 : Nat) - 512 : Int) + 4096 ∧
      2560 ≤ gasResHighVar2 0 ∧ ((gasResHighVar2 0 : Int) : ℝ) ≠ 0) :=
  ⟨by norm_num, gasResHighVar2_positive 0 (by norm_num)⟩

/-- Claim C2 (code bug): at the driver's default configuration
(temperature 8x, pressure 4x, humidity 2x, heater duration 150 ms) the
total conversion duration is 182775 microseconds, whose faithful
millisecond conversion is 182, but the recorded wait period is 51 because
the source truncates the microsecond count to `uint16` before dividing
by 1000. -/
theorem measPeriod_default_config_truncated :
    delayusPeriod 4 3 2 150 = 182775 ∧
    delayusPeriod 4 3 2 150 / 1000 = 182 ∧
    measPeriod 4 3 2 150 = 51 ∧
    measPeriod 4 3 2 150 ≠ delayusPeriod 4 3 2 150 / 1000 := by
  refine ⟨by decide, by decide, by decide, by decide⟩

/-- Claim C4, counterexample: called with both arguments equal to the
sea-level pressure in hPa, `CalcAltitude` does not return 0 (the measured
pressure argument is divided by 100 first, so it is expected in Pa). -/
theorem CalcAltitude_equal_hpa_args_nonzero :
    CalcAltitude 1013.25 1013.25 ≠ 0 := by
  show 44330.0 * (1.0 - (((1013.25 : ℝ) / 100) / 1013.25) ^ (0.1903 : ℝ)) ≠ 0
  have harg : ((1013.25 : ℝ) / 100) / 1013.25 = 1 / 100 := by norm_num
  rw [harg]
  have hlt : ((1 : ℝ) / 100) ^ (0.1903 : ℝ) < 1 :=
    Real.rpow_lt_one (by norm_num) (by norm_num) (by norm_num)
  have hpos : (0 : ℝ) < 44330.0 * (1.0 - (1 / 100 : ℝ) ^ (0.1903 : ℝ)) := by
    nlinarith
  exact ne_of_gt hpos

/-- Claim C4, amended: `CalcAltitude` takes the sea-level pressure in hPa
and the measured pressure in Pa; it returns 0 when the measured pressure is
101325 Pa = 1013.25 hPa, and at measured pressure 0 it returns the large
positive value 44330 with no division by zero. -/
theorem CalcAltitude_mixed_units :
    CalcAltitude 1013.25 101325 = 0 ∧
    CalcAltitude 1013.25 0 = 44330 ∧ (0 : ℝ) < CalcAltitude 1013.25 0 := by
  have h1 : CalcAltitude 1013.25 101325 = 0 := by
    show 44330.0 * (1.0 - (((101325 : ℝ) / 100) / 1013.25) ^ (0.1903 : ℝ)) = 0
    have harg : ((101325 : ℝ) / 100) / 1013.25 = 1 := by norm_num
    rw [harg, Real.one_rpow]
    norm_num
  have h2 : CalcAltitude 1013.25 0 = 44330 := by
    show 44330.0 * (1.0 - (((0 : ℝ) / 100) / 1013.25) ^ (0.1903 : ℝ)) = 44330
    have harg : ((0 : ℝ) / 100) / 1013.25 = 0 := by norm_num
    rw [harg, Real.zero_rpow (by norm_num)]
    norm_num
  exact ⟨h1, h2, by rw [h2]; norm_num⟩

set_option maxRecDepth 4096 in
theorem land_fc_mode_clear (w : Nat) (h : w < 256) :
    w &&& 0xFC &&& MODE_MSK = ModeSleep := by
  have hall : ∀ w, w < 256 → w &&& 0xFC &&& MODE_MSK = ModeSleep := by decide
  exact hall w h

/-- Claim C5: for every target mode and every sequence of mode-register
bytes the bus returns, every write `SetMode` issues before the first read
that observes the sleep power-mode has its mode bits cleared; hence no
non-sleep mode write ever precedes the first observed sleep-mode read. -/
theorem setMode_sleep_before_mode_write (reads : Nat → Nat) (mode : Nat) :
    ∀ fuel n evs, setModeGo reads mode fuel n = some evs →
      preSleepWritesClear evs = true := by
  intro fuel
  induction fuel with
  | zero =>
    intro n evs h
    simp [setModeGo] at h
  | succ k ih =>
    intro n evs h
    simp only [setModeGo] at h
    by_cases hpm : reads n % 256 &&& MODE_MSK ≠ ModeSleep
    · rw [if_pos hpm] at h
      cases hrec : setModeGo reads mode k (n + 1) with
      | none => rw [hrec] at h; exact absurd h (by simp)
      | some evs' =>
        rw [hrec] at h
        obtain rfl := (Option.some.inj h).symm
        have hlt : reads n % 256 < 256 := Nat.mod_lt _ (by norm_num)
        have hwr := land_fc_mode_clear (reads n % 256) hlt
        simp [preSleepWritesClear, hpm, hwr, ih (n + 1) evs' hrec]
    · rw [if_neg hpm] at h
      obtain rfl := (Option.some.inj h).symm
      push_neg at hpm
      simp [preSleepWritesClear, hpm]

/-- Witness for claim C5: a device that reports forced mode once and then
sleep; the trace is a read of forced, a masked clearing write, the sleep
read, then the target-mode write. -/
theorem setMode_sleep_before_mode_write_witness :
    preSleepWritesClear
      [BusEv.rd REG_CTRL_MEAS 1, BusEv.wr REG_CTRL_MEAS 0,
       BusEv.rd REG_CTRL_MEAS 0, BusEv.wr REG_CTRL_MEAS 1] = true :=
  setMode_sleep_before_mode_write readsWitness 1 3 0 _ rfl

theorem setMemoryPage_fst (v c r : Nat) : (setMemoryPage v c r).1 = targetPage r := by
  simp only [setMemoryPage]
  split
  · next h => simpa using h.symm
  · rfl

theorem targetPage_eq_iff (r1 r2 : Nat) :
    targetPage r2 = targetPage r1 ↔ (r1 ≤ 0x7F ↔ r2 ≤ 0x7F) := by
  unfold targetPage
  split_ifs with h2 h1 h1 <;> simp [MEM_PAGE0, MEM_PAGE1] <;> omega

/-- Claim C6: after an access to register `r1`, accessing register `r2`
issues exactly one page-select write when the two registers lie on opposite
sides of the `0x7F` boundary and none when they lie on the same side; the
target page is page 1 exactly for registers above `0x7F`, and the cached
page is updated to the target page on every access. -/
theorem setMemoryPage_cross_boundary (v1 v2 c r1 r2 : Nat) :
    (setMemoryPage v1 c r1).1 = targetPage r1 ∧
    (targetPage r2 = MEM_PAGE1 ↔ 0x7F < r2) ∧
    countWrites (setMemoryPage v2 (setMemoryPage v1 c r1).1 r2).2 =
      (if r1 ≤ 0x7F ↔ r2 ≤ 0x7F then 0 else 1) ∧
    (setMemoryPage v2 (setMemoryPage v1 c r1).1 r2).1 = targetPage r2 := by
  refine ⟨setMemoryPage_fst v1 c r1, ?_, ?_, setMemoryPage_fst v2 _ r2⟩
  · unfold targetPage
    split_ifs with h <;> simp [MEM_PAGE0, MEM_PAGE1, h]
  · rw [setMemoryPage_fst v1 c r1]
    simp only [setMemoryPage]
    by_cases h : targetPage r2 = targetPage r1
    · rw [if_pos h, if_pos ((targetPage_eq_iff r1 r2).mp h)]
      simp [countWrites]
    · rw [if_neg h, if_neg (fun hc => h ((targetPage_eq_iff r1 r2).mpr hc))]
      simp [countWrites]

/-- Claim C8: on both transports a Write with an empty data slice or with
more than `LEN_INTERLEAVE_BUFF / 2 = 10` pairs issues no bus transaction,
leaves the page cache alone and returns nil. -/
theorem write_capacity_noop (tx : List Nat → Option Unit) (pageReads : Nat → Nat)
    (reg data : List Nat) (page : Nat)
    (h : data.length = 0 ∨ LEN_INTERLEAVE_BUFF / 2 < data.length) :
    i2cWrite tx reg data = ([], some ()) ∧
    spiWrite pageReads tx page reg data = (page, [], [], some ()) ∧
    LEN_INTERLEAVE_BUFF / 2 = 10 := by
  have hc : ¬(0 < data.length ∧ data.length ≤ LEN_INTERLEAVE_BUFF / 2) := by
    simp only [LEN_INTERLEAVE_BUFF] at h ⊢
    omega
  refine ⟨?_, ?_, rfl⟩ <;> simp [i2cWrite, spiWrite, hc]

/-- Witness for claim C8 with an empty data slice. -/
theorem write_capacity_noop_witness :
    i2cWrite txOk [] [] = ([], some ()) ∧
    spiWrite pageReadsZero txOk 0 [] [] = (0, [], [], some ()) ∧
    LEN_INTERLEAVE_BUFF / 2 = 10 :=
  write_capacity_noop txOk pageReadsZero [] [] 0 (Or.inl rfl)

theorem interleaveBuf_getD (reg data : List Nat) (j : Nat) :
    (interleaveBuf reg data).getD j 0 =
      if j < 20 then
        (if j / 2 < data.length then
          (if j % 2 = 0 then reg.getD (j / 2) 0 % 256 else data.getD (j / 2) 0 % 256)
        else 0)
      else 0 := by
  rcases Nat.lt_or_ge j 20 with hj | hj
  · rw [if_pos hj]
    have hlen : j < (interleaveBuf reg data).length := by
      simpa [interleaveBuf, LEN_INTERLEAVE_BUFF] using hj
    rw [List.getD_eq_getElem _ _ hlen]
    simp [interleaveBuf, LEN_INTERLEAVE_BUFF]
  · rw [if_neg (by omega)]
    apply List.getD_eq_default
    simpa [interleaveBuf, LEN_INTERLEAVE_BUFF] using hj

theorem getD_map_mask (reg : List Nat) (i : Nat) (hi : i < reg.length) :
    (reg.map fun r => r % 256 &&& SPI_WR_MSK).getD i 0 = reg.getD i 0 % 256 &&& SPI_WR_MSK := by
  rw [List.getD_eq_getElem _ _ (by simpa using hi), List.getD_eq_getElem _ _ hi]
  simp

theorem mask_mod_eq (v : Nat) : (v % 256 &&& SPI_WR_MSK) % 256 = v % 256 &&& SPI_WR_MSK := by
  have hle : v % 256 &&& SPI_WR_MSK ≤ SPI_WR_MSK := Nat.and_le_right
  have : v % 256 &&& SPI_WR_MSK < 256 := by
    simp only [SPI_WR_MSK] at hle ⊢
    omega
  omega

/-- Claim C9, amended: every successful non-empty Write (1 to 10 pairs)
transmits exactly one 20-byte transaction holding the n (register, value)
pairs — with the register byte masked to 7 bits on the paged/SPI
transport — followed by 10 - n padding pairs of (0x00, 0x00). -/
theorem write_interleave_padding (tx : List Nat → Option Unit) (pageReads : Nat → Nat)
    (reg data : List Nat) (page : Nat)
    (hlen : reg.length = data.length) (h1 : 1 ≤ data.length) (h10 : data.length ≤ 10) :
    (i2cWrite tx reg data).1 = [interleaveBuf reg data] ∧
    (spiWrite pageReads tx page reg data).2.2.1 =
      [interleaveBuf (reg.map fun r => r % 256 &&& SPI_WR_MSK) data] ∧
    (interleaveBuf reg data).length = 20 ∧
    (interleaveBuf (reg.map fun r => r % 256 &&& SPI_WR_MSK) data).length = 20 ∧
    (∀ i, i < data.length →
      (interleaveBuf reg data).getD (2 * i) 0 = reg.getD i 0 % 256 ∧
      (interleaveBuf reg data).getD (2 * i + 1) 0 = data.getD i 0 % 256 ∧
      (interleaveBuf (reg.map fun r => r % 256 &&& SPI_WR_MSK) data).getD (2 * i) 0 =
        reg.getD i 0 % 256 &&& SPI_WR_MSK ∧
      (interleaveBuf (reg.map fun r => r % 256 &&& SPI_WR_MSK) data).getD (2 * i + 1) 0 =
        data.getD i 0 % 256) ∧
    (∀ j, 2 * data.length ≤ j →
      (interleaveBuf reg data).getD j 0 = 0 ∧
      (interleaveBuf (reg.map fun r => r % 256 &&& SPI_WR_MSK) data).getD j 0 = 0) := by
  have hcond : 0 < data.length ∧ data.length ≤ LEN_INTERLEAVE_BUFF / 2 := by
    simp only [LEN_INTERLEAVE_BUFF]
    omega
  refine ⟨?_, ?_, ?_, ?_, ?_, ?_⟩
  · cases htx : tx (interleaveBuf reg data) <;> simp [i2cWrite, hcond, htx]
  · cases htx : tx (interleaveBuf (reg.map fun r => r % 256 &&& SPI_WR_MSK) data) <;>
      simp [spiWrite, hcond, htx]
  · simp [interleaveBuf, LEN_INTERLEAVE_BUFF]
  · simp [interleaveBuf, LEN_INTERLEAVE_BUFF]
  · intro i hi
    have h2i : 2 * i < 20 := by omega
    have h2i1 : 2 * i + 1 < 20 := by omega
    have hdiv : 2 * i / 2 = i := by omega
    have hdiv1 : (2 * i + 1) / 2 = i := by omega
    have hmap := getD_map_mask reg i (by omega)
    refine ⟨?_, ?_, ?_, ?_⟩
    · rw [interleaveBuf_getD, if_pos h2i, hdiv, if_pos hi, if_pos (by omega)]
    · rw [interleaveBuf_getD, if_pos h2i1, hdiv1, if_pos hi, if_neg (by omega)]
    · rw [interleaveBuf_getD, if_pos h2i, hdiv, if_pos hi, if_pos (by omega), hmap,
        mask_mod_eq]
    · rw [interleaveBuf_getD, if_pos h2i1, hdiv1, if_pos hi, if_neg (by omega)]
  · intro j hj
    constructor <;>
      · rw [interleaveBuf_getD]
        rcases Nat.lt_or_ge j 20 with h20 | h20
        · rw [if_pos h20, if_neg (by omega)]
        · rw [if_neg (by omega)]

/-- Witness for claim C9: a single pair (0x74, 0xAB) on both transports. -/
theorem write_interleave_padding_witness :
    (i2cWrite txOk [0x74] [0xAB]).1 = [interleaveBuf [0x74] [0xAB]] ∧
    (spiWrite pageReadsZero txOk 0 [0x74] [0xAB]).2.2.1 =
      [interleaveBuf ([0x74].map fun r => r % 256 &&& SPI_WR_MSK) [0xAB]] ∧
    (interleaveBuf [0x74] [0xAB]).length = 20 ∧
    (interleaveBuf ([0x74].map fun r => r % 256 &&& SPI_WR_MSK) [0xAB]).length = 20 ∧
    (∀ i, i < [0xAB].length →
      (interleaveBuf [0x74] [0xAB]).getD (2 * i) 0 = [0x74].getD i 0 % 256 ∧
      (interleaveBuf [0x74] [0xAB]).getD (2 * i + 1) 0 = [0xAB].getD i 0 % 256 ∧
      (interleaveBuf ([0x74].map fun r => r % 256 &&& SPI_WR_MSK) [0xAB]).getD (2 * i) 0 =
        [0x74].getD i 0 % 256 &&& SPI_WR_MSK ∧
      (interleaveBuf ([0x74].map fun r => r % 256 &&& SPI_WR_MSK) [0xAB]).getD (2 * i + 1) 0 =
        [0xAB].getD i 0 % 256) ∧
    (∀ j, 2 * [0xAB].length ≤ j →
      (interleaveBuf [0x74] [0xAB]).getD j 0 = 0 ∧
      (interleaveBuf ([0x74].map fun r => r % 256 &&& SPI_WR_MSK) [0xAB]).getD j 0 = 0) :=
  write_interleave_padding txOk pageReadsZero [0x74] [0xAB] 0 rfl (by norm_num) (by norm_num)

/-- Claim C9, counterexample: on the paged/SPI transport a requested pair
(0x80, 0x05) goes on the wire as (0x00, 0x05) — the register byte is
masked to 7 bits, so the transaction is not the requested pairs verbatim. -/
theorem spiWrite_masked_register_counterexample :
    (spiWrite pageReadsZero txOk 0 [0x80] [0x05]).2.2.1 =
      [[0x00, 0x05, 0, 0, 0, 0, 0, 0, 0, 0, 0, 0, 0, 0, 0, 0, 0, 0, 0, 0]] ∧
    ([0x00, 0x05, 0, 0, 0, 0, 0, 0, 0, 0, 0, 0, 0, 0, 0, 0, 0, 0, 0, 0] : List Nat) ≠
      [0x80, 0x05, 0, 0, 0, 0, 0, 0, 0, 0, 0, 0, 0, 0, 0, 0, 0, 0, 0, 0] := by
  exact ⟨by decide, by decide⟩

theorem status_or_new_data (a b : Nat) :
    (a &&& 0x80 ||| b &&& 0x20 ||| b &&& 0x10) &&& 0x80 = a &&& 0x80 := by
  apply Nat.eq_of_testBit_eq
  intro j
  simp only [Nat.testBit_and, Nat.testBit_or]
  by_cases hj : j = 7
  · subst hj
    have e1 : Nat.testBit 0x80 7 = true := by decide
    have e2 : Nat.testBit 0x20 7 = false := by decide
    have e3 : Nat.testBit 0x10 7 = false := by decide
    simp [e1, e2, e3]
  · have h128 : Nat.testBit 0x80 j = false := by
      have h2 : (0x80 : Nat) = 2 ^ 7 := by norm_num
      rw [h2, Nat.testBit_two_pow]
      simpa using fun h => hj h.symm
    simp [h128]

theorem statusOf_new_data (variantID : Nat) (data : List Nat) :
    statusOf variantID data &&& NEW_DATA_MSK = byteAt data 0 &&& NEW_DATA_MSK := by
  unfold statusOf NEW_DATA_MSK GASM_VALID_MSK HEAT_STAB_MSK
  by_cases hv : variantID = VARIANT_GAS_HIGH
  · rw [if_pos hv]
    exact status_or_new_data _ _
  · rw [if_neg hv]
    exact status_or_new_data _ _

theorem readAttempt_no_new (bus : BusReads) (variantID : Nat)
    (cal : CalibrationCoefficients) (i : Nat) (m : DeviceMeas) (data : List Nat)
    (hb : bus (MEAS_STATUS_0 + i * 17) 17 = some data)
    (hnd : byteAt data 0 &&& NEW_DATA_MSK = 0) :
    readAttempt bus variantID cal i m = some (false,
      { m with Status := statusOf variantID data,
               GasIndex := byteAt data 0 &&& GAS_INDEX_MSK,
               MeasIndex := byteAt data 1 },
      [(MEAS_STATUS_0 + i * 17, 17)]) := by
  have hs0 : statusOf variantID data &&& NEW_DATA_MSK = 0 := by
    rw [statusOf_new_data]
    exact hnd
  unfold readAttempt
  rw [hb]
  simp only []
  rw [if_neg (by simp [hs0])]

theorem readDataGo_succ (bus : BusReads) (variantID : Nat)
    (cal : CalibrationCoefficients) (i k : Nat) (m m1 : DeviceMeas)
    (tr : List (Nat × Nat))
    (h : readAttempt bus variantID cal i m = some (false, m1, tr)) :
    readDataGo bus variantID cal i (k + 1) m =
      match readDataGo bus variantID cal (i + 1) k m1 with
      | none => none
      | some (m2, tr2) => some (m2, tr ++ tr2) := by
  simp only [readDataGo, h]
  simp

theorem readDataGo_no_new_data (bus : BusReads) (variantID : Nat)
    (cal : CalibrationCoefficients) (dataF : Nat → List Nat) :
    ∀ k i m,
      (∀ j, j < k → bus (MEAS_STATUS_0 + (i + j) * 17) 17 = some (dataF (i + j))) →
      (∀ j, j < k → byteAt (dataF (i + j)) 0 &&& NEW_DATA_MSK = 0) →
      readDataGo bus variantID cal i k m =
        some ((if k = 0 then m else
          { m with Status := statusOf variantID (dataF (i + k - 1)),
                   GasIndex := byteAt (dataF (i + k - 1)) 0 &&& GAS_INDEX_MSK,
                   MeasIndex := byteAt (dataF (i + k - 1)) 1 }), pollTrace i k) := by
  intro k
  induction k with
  | zero =>
    intro i m _ _
    simp [readDataGo, pollTrace]
  | succ k ih =>
    intro i m hbus hnd
    have h0 : bus (MEAS_STATUS_0 + i * 17) 17 = some (dataF i) := by
      have := hbus 0 (by omega)
      simpa using this
    have hnd0 : byteAt (dataF i) 0 &&& NEW_DATA_MSK = 0 := by
      have := hnd 0 (by omega)
      simpa using this
    have hbus1 : ∀ j, j < k →
        bus (MEAS_STATUS_0 + (i + 1 + j) * 17) 17 = some (dataF (i + 1 + j)) := by
      intro j hj
      have := hbus (j + 1) (by omega)
      rw [show i + (j + 1) = i + 1 + j by omega] at this
      exact this
    have hnd1 : ∀ j, j < k → byteAt (dataF (i + 1 + j)) 0 &&& NEW_DATA_MSK = 0 := by
      intro j hj
      have := hnd (j + 1) (by omega)
      rw [show i + (j + 1) = i + 1 + j by omega] at this
      exact this
    have hrec := ih (i + 1)
      { m with Status := statusOf variantID (dataF i),
               GasIndex := byteAt (dataF i) 0 &&& GAS_INDEX_MSK,
               MeasIndex := byteAt (dataF i) 1 } hbus1 hnd1
    rw [readDataGo_succ bus variantID cal i k m _ _
      (readAttempt_no_new bus variantID cal i m (dataF i) h0 hnd0), hrec]
    simp only []
    rcases Nat.eq_zero_or_pos k with hk | hk
    · subst hk
      simp [pollTrace]
    · have hkne : k ≠ 0 := by omega
      have hidx : i + 1 + k - 1 = i + (k + 1) - 1 := by omega
      simp [hkne, hidx, pollTrace]

/-- Claim C3, amended: with a bus whose five 17-byte poll windows all have
the new-data bit clear, the data-fetch step performs exactly 5 poll reads
at registers `0x1D + attempt * 17`, returns success, and leaves ResHeat,
Idac, GasWait, Temperature, Pressure, Humidity and GasResistance at their
prior values — but Status, GasIndex and MeasIndex are overwritten with the
values latched from the last polled window. -/
theorem readData_no_new_data (bus : BusReads) (variantID : Nat)
    (cal : CalibrationCoefficients) (m : DeviceMeas) (dataF : Nat → List Nat)
    (hbus : ∀ i, i < 5 → bus (MEAS_STATUS_0 + i * 17) 17 = some (dataF i))
    (hnd : ∀ i, i < 5 → byteAt (dataF i) 0 &&& NEW_DATA_MSK = 0) :
    readData bus variantID cal m =
      some ({ m with Status := statusOf variantID (dataF 4),
                     GasIndex := byteAt (dataF 4) 0 &&& GAS_INDEX_MSK,
                     MeasIndex := byteAt (dataF 4) 1 },
        [(29, 17), (46, 17), (63, 17), (80, 17), (97, 17)]) := by
  have h := readDataGo_no_new_data bus variantID cal dataF 5 0 m
    (by intro j hj; simpa using hbus j hj)
    (by intro j hj; simpa using hnd j hj)
  rw [readData, h]
  have htr : pollTrace 0 5 = [(29, 17), (46, 17), (63, 17), (80, 17), (97, 17)] := rfl
  rw [htr]
  norm_num

/-- Witness for claim C3: a fake bus always answering an all-zero window. -/
theorem readData_no_new_data_witness :
    readData busNoData 0 calibZero measZero =
      some ({ measZero with Status := statusOf 0 windowZero,
                            GasIndex := byteAt windowZero 0 &&& GAS_INDEX_MSK,
                            MeasIndex := byteAt windowZero 1 },
        [(29, 17), (46, 17), (63, 17), (80, 17), (97, 17)]) :=
  readData_no_new_data busNoData 0 calibZero measZero (fun _ => windowZero)
    (fun _ _ => rfl)
    (fun _ _ => by show byteAt windowZero 0 &&& NEW_DATA_MSK = 0; decide)

/-- Claim C3, counterexample: a fake bus that never sets the new-data bit
but reports measurement index 1 makes the data-fetch step overwrite
`MeasIndex` (0 before the call, 1 after), so not all listed Measurement
fields keep their prior values. -/
theorem readData_stale_overwrites_measindex :
    readData busStale 0 calibZero measZero =
      some ({ measZero with MeasIndex := 1 },
        [(29, 17), (46, 17), (63, 17), (80, 17), (97, 17)]) ∧
    measZero.MeasIndex = 0 ∧ (1 : Nat) ≠ 0 :=
  ⟨rfl, rfl, by decide⟩

/-- Claim C1, amended: in a poll attempt that sees the new-data bit, the
gas resistance is computed — by the low- or high-variant formula selected
by `VariantID` — whenever at least one of the heat-stable (0x10) and
gas-valid (0x20) status bits is set, and `GasResistance` is set to 0 only
when both are clear. -/
theorem readAttempt_gas_branch (bus : BusReads) (variantID : Nat)
    (cal : CalibrationCoefficients) (i : Nat) (m : DeviceMeas)
    (r : Bool × DeviceMeas × List (Nat × Nat))
    (h : readAttempt bus variantID cal i m = some r) (hnew : r.1 = true) :
    (r.2.1.Status &&& (HEAT_STAB_MSK ||| GASM_VALID_MSK) = 0 →
      r.2.1.GasResistance = 0) ∧
    (∀ data, bus (MEAS_STATUS_0 + i * 17) 17 = some data →
      r.2.1.Status &&& (HEAT_STAB_MSK ||| GASM_VALID_MSK) ≠ 0 →
      r.2.1.GasResistance =
        if variantID = VARIANT_GAS_HIGH then
          calcGasResistanceHigh (adcGasResHighOf data) (gasRangeHighOf data)
        else calcGasResistanceLow cal (adcGasResLowOf data) (gasRangeLowOf data)) := by
  unfold readAttempt at h
  cases hbus : bus (MEAS_STATUS_0 + i * 17) 17 with
  | none => rw [hbus] at h; exact absurd h (by simp)
  | some data =>
    rw [hbus] at h
    simp only [] at h
    by_cases hndat : statusOf variantID data &&& NEW_DATA_MSK ≠ 0
    · rw [if_pos hndat] at h
      cases h1 : bus (REG_RES_HEAT0 + (byteAt data 0 &&& GAS_INDEX_MSK)) 1 with
      | none => rw [h1] at h; exact absurd h (by simp)
      | some resHeat =>
        rw [h1] at h
        cases h2 : bus (REG_IDAC_HEAT0 + (byteAt data 0 &&& GAS_INDEX_MSK)) 1 with
        | none => rw [h2] at h; exact absurd h (by simp)
        | some idac =>
          rw [h2] at h
          cases h3 : bus (REG_GAS_WAIT0 + (byteAt data 0 &&& GAS_INDEX_MSK)) 1 with
          | none => rw [h3] at h; exact absurd h (by simp)
          | some gasWait =>
            rw [h3] at h
            obtain rfl := (Option.some.inj h).symm
            constructor
            · intro hs
              simp only [] at hs ⊢
              rw [if_neg (by simpa using hs)]
            · intro data' hdata' hs
              have hdd : data' = data := (Option.some.inj hdata').symm
              subst hdd
              simp only [] at hs ⊢
              rw [if_pos (by simpa using hs)]
    · rw [if_neg hndat] at h
      obtain rfl := (Option.some.inj h).symm
      exact absurd hnew (by simp)

/-- Witness for claim C1: new data with both gas status bits clear gives a
gas resistance of 0. -/
theorem readAttempt_gas_branch_witness :
    (readAttempt busNewDataOnly VARIANT_GAS_HIGH calibZero 0 measZero).map
      (fun r => r.2.1.GasResistance) = some 0 := by
  cases h : readAttempt busNewDataOnly VARIANT_GAS_HIGH calibZero 0 measZero with
  | none =>
    have hsome : (readAttempt busNewDataOnly VARIANT_GAS_HIGH calibZero 0 measZero).isSome
        = true := rfl
    rw [h] at hsome
    exact absurd hsome (by simp)
  | some r =>
    have hb : r.1 = true := by
      have hp : (readAttempt busNewDataOnly VARIANT_GAS_HIGH calibZero 0 measZero).map
          (fun r => r.1) = some true := rfl
      rw [h] at hp
      simpa using hp
    have hs : r.2.1.Status &&& (HEAT_STAB_MSK ||| GASM_VALID_MSK) = 0 := by
      have hp : (readAttempt busNewDataOnly VARIANT_GAS_HIGH calibZero 0 measZero).map
          (fun r => r.2.1.Status &&& (HEAT_STAB_MSK ||| GASM_VALID_MSK)) = some 0 := rfl
      rw [h] at hp
      simpa using hp
    have hzero :=
      (readAttempt_gas_branch busNewDataOnly VARIANT_GAS_HIGH calibZero 0 measZero r h hb).1 hs
    simp [hzero]

/-- Claim C1, counterexample: with the gas-valid bit set but the
heat-stable bit clear (so not both status bits are set), the data-fetch
step computes a non-zero gas resistance instead of reporting zero. -/
theorem readData_gas_valid_only_counterexample :
    (readData busGasValidOnly VARIANT_GAS_HIGH calibZero measZero).map
      (fun r => r.1.Status &&& (HEAT_STAB_MSK ||| GASM_VALID_MSK)) = some 0x20 ∧
    (readData busGasValidOnly VARIANT_GAS_HIGH calibZero measZero).map
      (fun r => r.1.Status &&& HEAT_STAB_MSK) = some 0 ∧
    (0x20 : Nat) ≠ HEAT_STAB_MSK ||| GASM_VALID_MSK ∧
    (readData busGasValidOnly VARIANT_GAS_HIGH calibZero measZero).map
      (fun r => r.1.GasResistance) = some (calcGasResistanceHigh 512 0) ∧
    calcGasResistanceHigh 512 0 ≠ 0 := by
  refine ⟨rfl, rfl, by decide, rfl, ?_⟩
  have hv2 : gasResHighVar2 512 = 4096 := by decide
  show (1000000 : ℝ) * ((262144 >>> 0 : Nat) : ℝ) / ((gasResHighVar2 512 : Int) : ℝ) ≠ 0
  rw [hv2, show (262144 >>> 0 : Nat) = 262144 from rfl]
  norm_num

end Bme68x
